import Mathlib

/-!
Shallow embedding of `src/text/template/option.go` (Go package `template`):
the option-string resolver and the policy store it mutates.

The source declares the `option` struct twice; the second, two-field
declaration `{ missingKey; onPanic }` is the complete one and is the one
embedded here.  A Go `panic` is embedded as an `Except.error` carrying the
panic message, and the in-place mutation of the store is embedded as explicit
state passing.
-/

/-- The source's `missingKeyAction`: how to respond to indexing a map with a
key that is not present.  Constants `mapInvalid`, `mapZeroValue`, `mapError`
are declared with `iota`, so `mapInvalid` is the Go zero value. -/
inductive missingKeyAction where
  | mapInvalid
  | mapZeroValue
  | mapError
  deriving DecidableEq

/-- The source's `onPanicAction`: how to handle template function panics.
Constants `panicRecover`, `panicNop` are declared with `iota`, so
`panicRecover` is the Go zero value. -/
inductive onPanicAction where
  | panicRecover
  | panicNop
  deriving DecidableEq

open missingKeyAction onPanicAction

/-- The source's `option` struct (its second, complete declaration): the
policy store attached to a template object. -/
structure option where
  missingKey : missingKeyAction
  onPanic : onPanicAction
  deriving DecidableEq

/-- Split a character list at the first `=`, returning the parts before and
after it, or `none` when no `=` occurs. -/
def cutList : List Char → Option (List Char × List Char)
  | [] => none
  | c :: cs =>
    if c = '=' then some ([], cs)
    else
      match cutList cs with
      | some (k, v) => some (c :: k, v)
      | none => none

/-- The source's `strings.Cut(opt, "=")`: the part before the first `=` and
the part after it when `=` occurs (`ok = true`), `none` otherwise. -/
def cut (s : String) : Option (String × String) :=
  match cutList s.data with
  | some (k, v) => some (⟨k⟩, ⟨v⟩)
  | none => none

/-- The source's `(*Template).setOption`: resolve a single option string
against the store.  The two `panic` sites are embedded as `Except.error` with
the panic message; on success the updated store is returned (in the source the
corresponding field is assigned in place). -/
def setOption (o : option) (opt : String) : Except String option :=
  if opt = "" then .error "empty option string"
  else
    match cut opt with
    | some (key, value) =>
      if key = "missingkey" then
        if value = "invalid" ∨ value = "default" then .ok { o with missingKey := mapInvalid }
        else if value = "zero" then .ok { o with missingKey := mapZeroValue }
        else if value = "error" then .ok { o with missingKey := mapError }
        else .error ("unrecognized option: " ++ opt)
      else if key = "onpanic" then
        if value = "recover" then .ok { o with onPanic := panicRecover }
        else if value = "nop" then .ok { o with onPanic := panicNop }
        else .error ("unrecognized option: " ++ opt)
      else .error ("unrecognized option: " ++ opt)
    | none => .error ("unrecognized option: " ++ opt)

/-- The loop of the source's `(*Template).Option`, at the level of the store:
process the option strings left to right, threading the store; a panic stops
the loop at once.  The first component is the store as the loop leaves it
(mutations made before a panic persist), the second is the panic message when
one was raised. -/
def applyOptions (o : option) : List String → option × Option String
  | [] => (o, none)
  | s :: rest =>
    match setOption o s with
    | .ok o' => applyOptions o' rest
    | .error e => (o, some e)

/-- Modelled from the spec: the read accessor `currentMissingKeyPolicy` of the
Policy Store.  The rendering engine (outside `src/`) reads the store's
`missingKey` field directly. -/
def currentMissingKeyPolicy (o : option) : missingKeyAction := o.missingKey

/-- Modelled from the spec: the read accessor `currentFaultPolicy` of the
Policy Store.  The rendering engine (outside `src/`) reads the store's
`onPanic` field directly. -/
def currentFaultPolicy (o : option) : onPanicAction := o.onPanic

/-- Modelled from the spec: template-object creation (in `template.go`, not in
`src/`) leaves the `option` struct zero-valued, and the Go zero value of each
field is its first `iota` constant, `mapInvalid` and `panicRecover` in the
source. -/
def newOption : option := { missingKey := mapInvalid, onPanic := panicRecover }

namespace template

/-- The source's `(*Template).Option`, with pointer identity made explicit: a
template object is an address `t` into a heap `h` of policy stores.  The call
`t.init()` (not in `src/`; modelled from the spec) allocates shared internals
and does not touch the policy store, so it is the identity here.  The loop
mutates the store through the pointer and `return t` yields the receiver
itself; a panic aborts the call, leaving the mutations made so far in the
heap. -/
def Option (t : Nat) (h : Nat → option) : List String → (Nat → option) × Except String Nat
  | [] => (h, .ok t)
  | s :: rest =>
    match setOption (h t) s with
    | .ok o' => Option t (fun n => if n = t then o' else h n) rest
    | .error e => (h, .error e)

end template

/-- C1: each option string of the recognized table resolves successfully,
sets the corresponding field of the policy store to exactly the mapped enum
value, and the matching accessor afterwards returns that value. -/
theorem C1_recognized_options_set_mapped_values (o : option) :
    setOption o "missingkey=invalid" = .ok { o with missingKey := mapInvalid } ∧
    setOption o "missingkey=default" = .ok { o with missingKey := mapInvalid } ∧
    setOption o "missingkey=zero" = .ok { o with missingKey := mapZeroValue } ∧
    setOption o "missingkey=error" = .ok { o with missingKey := mapError } ∧
    setOption o "onpanic=recover" = .ok { o with onPanic := panicRecover } ∧
    setOption o "onpanic=nop" = .ok { o with onPanic := panicNop } ∧
    (setOption o "missingkey=invalid").map currentMissingKeyPolicy = .ok mapInvalid ∧
    (setOption o "missingkey=default").map currentMissingKeyPolicy = .ok mapInvalid ∧
    (setOption o "missingkey=zero").map currentMissingKeyPolicy = .ok mapZeroValue ∧
    (setOption o "missingkey=error").map currentMissingKeyPolicy = .ok mapError ∧
    (setOption o "onpanic=recover").map currentFaultPolicy = .ok panicRecover ∧
    (setOption o "onpanic=nop").map currentFaultPolicy = .ok panicNop :=
  ⟨rfl, rfl, rfl, rfl, rfl, rfl, rfl, rfl, rfl, rfl, rfl, rfl⟩

/-- C5: the empty option string is always rejected, with the panic message the
source raises for it; it is never absorbed or defaulted. -/
theorem C5_empty_string_rejected (o : option) :
    setOption o "" = .error "empty option string" := rfl

/-- C7: applying `missingkey=default` and applying `missingkey=invalid` to the
same prior store resolve to the identical store, with `missingKey` set to
`mapInvalid` in both cases. -/
theorem C7_default_invalid_alias (o : option) :
    setOption o "missingkey=default" = setOption o "missingkey=invalid" ∧
    setOption o "missingkey=default" = .ok { o with missingKey := mapInvalid } :=
  ⟨rfl, rfl⟩

/-- C4: a freshly constructed store holds the defaults `mapInvalid` and
`panicRecover`, and every store reachable from it through `applyOptions`
holds a valid value for both fields (never unset). -/
theorem C4_defaults_and_validity :
    currentMissingKeyPolicy newOption = mapInvalid ∧
    currentFaultPolicy newOption = panicRecover ∧
    ∀ opts : List String,
      ((applyOptions newOption opts).1.missingKey = mapInvalid ∨
       (applyOptions newOption opts).1.missingKey = mapZeroValue ∨
       (applyOptions newOption opts).1.missingKey = mapError) ∧
      ((applyOptions newOption opts).1.onPanic = panicRecover ∨
       (applyOptions newOption opts).1.onPanic = panicNop) := by
  refine ⟨rfl, rfl, fun opts => ⟨?_, ?_⟩⟩
  · cases (applyOptions newOption opts).1.missingKey <;> simp
  · cases (applyOptions newOption opts).1.onPanic <;> simp

/-- C2: resolution of a sequence stops at the first invalid string — the
result is the same whatever strings follow it — the failing string leaves the
store exactly as the successful prefix left it, and the successful prefix
stays applied (no rollback). -/
theorem C2_stops_at_first_invalid (o o' : option) (pre : List String)
    (bad e : String)
    (hpre : applyOptions o pre = (o', none))
    (hbad : setOption o' bad = .error e) :
    ∀ post : List String, applyOptions o (pre ++ bad :: post) = (o', some e) := by
  induction pre generalizing o with
  | nil =>
    intro post
    have ho : o = o' := by simpa [applyOptions] using hpre
    subst ho
    simp [applyOptions, hbad]
  | cons s pre ih =>
    intro post
    cases hs : setOption o s with
    | error e2 => simp [applyOptions, hs] at hpre
    | ok o1 =>
      simp only [applyOptions, hs] at hpre
      simpa [applyOptions, hs] using ih o1 hpre post

/-- C2 witness: a concrete run in which a successful string is followed by an
invalid one. -/
theorem C2_stops_at_first_invalid_witness :
    applyOptions newOption ["missingkey=zero", "missingkey=bogus"] =
      ({ newOption with missingKey := mapZeroValue },
        some "unrecognized option: missingkey=bogus") := by
  simpa using
    C2_stops_at_first_invalid newOption { newOption with missingKey := mapZeroValue }
      ["missingkey=zero"] "missingkey=bogus" "unrecognized option: missingkey=bogus"
      rfl rfl []

/-- Auxiliary: a character list without `=` has no cut. -/
theorem cutList_eq_none_of_not_mem (l : List Char) (h : '=' ∉ l) :
    cutList l = none := by
  induction l with
  | nil => rfl
  | cons c cs ih =>
    simp only [List.mem_cons, not_or] at h
    have hc : ¬c = '=' := fun hc => h.1 hc.symm
    simp [cutList, hc, ih h.2]

/-- C6: an option string with no `=` character is always rejected; the system
recognizes no bare-keyword options. -/
theorem C6_no_equals_rejected (o : option) (opt : String) (h : '=' ∉ opt.data) :
    setOption o opt =
      .error (if opt = "" then "empty option string"
              else "unrecognized option: " ++ opt) := by
  by_cases he : opt = ""
  · subst he
    rfl
  · have hc : cut opt = none := by
      simp [cut, cutList_eq_none_of_not_mem opt.data h]
    simp [setOption, he, hc]

/-- C6 witness: a concrete bare-keyword string. -/
theorem C6_no_equals_rejected_witness :
    ('=' ∉ "zero".data) ∧
      setOption newOption "zero" = .error "unrecognized option: zero" :=
  ⟨by decide, by simpa using C6_no_equals_rejected newOption "zero" (by decide)⟩

/-- C8: strings are processed left to right — a run over a concatenation is
the run over the first part followed by the run over the second from the store
it produced — and a later successful setting of the same field silently
overwrites an earlier one, as in the concrete last-write-wins example. -/
theorem C8_left_to_right_last_write_wins :
    (∀ (o o' : option) (xs ys : List String), applyOptions o xs = (o', none) →
        applyOptions o (xs ++ ys) = applyOptions o' ys) ∧
    ∀ o : option, applyOptions o ["missingkey=zero", "missingkey=error"] =
        ({ o with missingKey := mapError }, none) := by
  constructor
  · intro o o' xs ys h
    induction xs generalizing o with
    | nil =>
      have ho : o = o' := by simpa [applyOptions] using h
      subst ho
      rfl
    | cons s xs ih =>
      cases hs : setOption o s with
      | error e2 => simp [applyOptions, hs] at h
      | ok o1 =>
        simp only [applyOptions, hs] at h
        simpa [applyOptions, hs] using ih o1 h
  · intro o
    rfl

/-- C8 witness: the composition law at a concrete split, together with the
concrete last-write-wins run. -/
theorem C8_left_to_right_last_write_wins_witness :
    applyOptions newOption (["missingkey=zero"] ++ ["missingkey=error"]) =
      applyOptions { newOption with missingKey := mapZeroValue }
        ["missingkey=error"] ∧
    applyOptions newOption ["missingkey=zero", "missingkey=error"] =
      ({ newOption with missingKey := mapError }, none) :=
  ⟨C8_left_to_right_last_write_wins.1 newOption
      { newOption with missingKey := mapZeroValue }
      ["missingkey=zero"] ["missingkey=error"] rfl,
   C8_left_to_right_last_write_wins.2 newOption⟩

/-- Auxiliary: a string that cuts at an `=` is not empty. -/
theorem cut_ne_empty (opt : String) (p : String × String)
    (h : cut opt = some p) : opt ≠ "" := by
  intro he
  subst he
  simp [cut, cutList] at h

/-- C3: every key/value combination outside the recognized table — an
unrecognized key, or a recognized key with an unrecognized value — is rejected
with the single panic message carrying the offending option string verbatim,
the store is left unchanged, and the failure surfaces directly to the caller
of the resolution loop with no other recovery action. -/
theorem C3_unrecognized_pairs_rejected (o : option) (opt key value : String)
    (hcut : cut opt = some (key, value))
    (hkey : key = "missingkey" →
      value ≠ "invalid" ∧ value ≠ "default" ∧ value ≠ "zero" ∧ value ≠ "error")
    (hpanic : key = "onpanic" → value ≠ "recover" ∧ value ≠ "nop") :
    setOption o opt = .error ("unrecognized option: " ++ opt) ∧
    ∀ rest : List String,
      applyOptions o (opt :: rest) = (o, some ("unrecognized option: " ++ opt)) := by
  have hne : opt ≠ "" := cut_ne_empty opt (key, value) hcut
  have hmain : setOption o opt = .error ("unrecognized option: " ++ opt) := by
    by_cases hk : key = "missingkey"
    · obtain ⟨h1, h2, h3, h4⟩ := hkey hk
      subst hk
      simp [setOption, hne, hcut, h1, h2, h3, h4]
    · by_cases hp : key = "onpanic"
      · obtain ⟨h1, h2⟩ := hpanic hp
        subst hp
        simp [setOption, hne, hcut, h1, h2]
      · simp [setOption, hne, hcut, hk, hp]
  exact ⟨hmain, fun rest => by simp [applyOptions, hmain]⟩

/-- C3 witness: the concrete invalid strings `missingkey=bogus` (recognized
key, unrecognized value) and `color=red` (unrecognized key). -/
theorem C3_unrecognized_pairs_rejected_witness :
    setOption newOption "missingkey=bogus" =
      .error "unrecognized option: missingkey=bogus" ∧
    setOption newOption "color=red" = .error "unrecognized option: color=red" :=
  ⟨by simpa using
      (C3_unrecognized_pairs_rejected newOption "missingkey=bogus" "missingkey"
        "bogus" (by decide) (by decide) (by decide)).1,
   by simpa using
      (C3_unrecognized_pairs_rejected newOption "color=red" "color" "red"
        (by decide) (by decide) (by decide)).1⟩

/-- C9: a successful resolution overwrites exactly one field — a `missingkey`
option leaves `onPanic` untouched and an `onpanic` option leaves `missingKey`
untouched — and the concrete run of `onpanic=nop` then `missingkey=error`
yields both settings simultaneously. -/
theorem C9_single_field_frame :
    (∀ (o o' : option) (opt v : String), cut opt = some ("missingkey", v) →
        setOption o opt = .ok o' → o'.onPanic = o.onPanic) ∧
    (∀ (o o' : option) (opt v : String), cut opt = some ("onpanic", v) →
        setOption o opt = .ok o' → o'.missingKey = o.missingKey) ∧
    ∀ o : option, applyOptions o ["onpanic=nop", "missingkey=error"] =
        ({ missingKey := mapError, onPanic := panicNop }, none) := by
  refine ⟨?_, ?_, fun o => rfl⟩
  · intro o o' opt v hcut hok
    have hne : opt ≠ "" := cut_ne_empty opt ("missingkey", v) hcut
    simp only [setOption, if_neg hne, hcut] at hok
    by_cases h1 : v = "invalid" ∨ v = "default"
    · rw [if_pos h1] at hok
      injection hok with h
      rw [← h]
    · rw [if_neg h1] at hok
      by_cases h2 : v = "zero"
      · rw [if_pos h2] at hok
        injection hok with h
        rw [← h]
      · rw [if_neg h2] at hok
        by_cases h3 : v = "error"
        · rw [if_pos h3] at hok
          injection hok with h
          rw [← h]
        · rw [if_neg h3] at hok
          simp at hok
  · intro o o' opt v hcut hok
    have hne : opt ≠ "" := cut_ne_empty opt ("onpanic", v) hcut
    simp only [setOption, if_neg hne, hcut] at hok
    by_cases h1 : v = "recover"
    · rw [if_pos h1] at hok
      injection hok with h
      rw [← h]
    · rw [if_neg h1] at hok
      by_cases h2 : v = "nop"
      · rw [if_pos h2] at hok
        injection hok with h
        rw [← h]
      · rw [if_neg h2] at hok
        simp at hok

/-- C9 witness: concrete single-field updates and the concrete two-string
run. -/
theorem C9_single_field_frame_witness :
    ({ newOption with missingKey := mapZeroValue } : option).onPanic =
      newOption.onPanic ∧
    ({ newOption with onPanic := panicNop } : option).missingKey =
      newOption.missingKey ∧
    applyOptions newOption ["onpanic=nop", "missingkey=error"] =
      ({ missingKey := mapError, onPanic := panicNop }, none) :=
  ⟨C9_single_field_frame.1 newOption { newOption with missingKey := mapZeroValue }
      "missingkey=zero" "zero" rfl rfl,
   C9_single_field_frame.2.1 newOption { newOption with onPanic := panicNop }
      "onpanic=nop" "nop" rfl rfl,
   C9_single_field_frame.2.2 newOption⟩

/-- C10: when every option string resolves successfully, `Option` returns the
very receiver it was invoked on — the same address `t`, not a copy — and the
heap cell at `t` holds the updated policy store while every other cell is
untouched, so chained calls on the returned object see the updates. -/
theorem C10_option_returns_receiver (t : Nat) (h : Nat → option)
    (opts : List String) (o' : option)
    (hok : applyOptions (h t) opts = (o', none)) :
    template.Option t h opts = (fun n => if n = t then o' else h n, .ok t) := by
  induction opts generalizing h with
  | nil =>
    have ho : h t = o' := by simpa [applyOptions] using hok
    subst ho
    simp only [template.Option]
    refine Prod.ext ?_ rfl
    funext n
    by_cases hn : n = t
    · subst hn
      simp
    · simp [hn]
  | cons s rest ih =>
    cases hs : setOption (h t) s with
    | error e => simp [applyOptions, hs] at hok
    | ok o1 =>
      simp only [applyOptions, hs] at hok
      have hm : applyOptions ((fun n => if n = t then o1 else h n) t) rest =
          (o', none) := by simpa using hok
      simp only [template.Option, hs]
      rw [ih (fun n => if n = t then o1 else h n) hm]
      refine Prod.ext ?_ rfl
      funext n
      by_cases hn : n = t
      · simp [hn]
      · simp [hn]

/-- C10 witness: a concrete heap with one template at address 0 and one
successful option string. -/
theorem C10_option_returns_receiver_witness :
    template.Option 0 (fun _ => newOption) ["missingkey=error"] =
      (fun n => if n = 0 then { newOption with missingKey := mapError }
                else newOption, .ok 0) :=
  C10_option_returns_receiver 0 (fun _ => newOption) ["missingkey=error"]
    { newOption with missingKey := mapError } rfl
